import Mathlib

/-!
Verification development for the unreal-vdb volumetric path tracer.

The repository's `VdbResearchComponent.h` declares the user-facing render
parameters together with their clamp metadata (ClampMin/ClampMax on each
UPROPERTY); those clamps are embedded directly from the header. The
integrator, blackbody emitter, shading resolver and sample accumulator are
not part of the sources available here, so they are modelled from the
specification's component contracts (sections 4.2-4.6); each such
definition carries a doc comment saying so.

All scalar arithmetic is carried out over `ℚ` (exact rationals standing in
for the float arithmetic of the engine), radiance and colours are
componentwise RGB triples, and the stochastic choices of the delta-tracking
loop are supplied by an explicit event stream, so every run of the
integrator is a pure fold.
-/

namespace UnrealVdb

/-- Linear RGB triple. -/
@[ext]
structure RGB where
  r : ℚ
  g : ℚ
  b : ℚ
deriving DecidableEq

instance : Zero RGB := ⟨⟨0, 0, 0⟩⟩

instance : One RGB := ⟨⟨1, 1, 1⟩⟩

instance : Add RGB := ⟨fun a c => ⟨a.r + c.r, a.g + c.g, a.b + c.b⟩⟩

instance : Mul RGB := ⟨fun a c => ⟨a.r * c.r, a.g * c.g, a.b * c.b⟩⟩

instance : SMul ℚ RGB := ⟨fun k a => ⟨k * a.r, k * a.g, k * a.b⟩⟩

/-- World-space position or direction. -/
structure Vec3 where
  x : ℚ
  y : ℚ
  z : ℚ
deriving DecidableEq

/-- Clamp a rational into the closed interval from `lo` to `hi`, the way the
engine applies the `ClampMin`/`ClampMax` property metadata. -/
def rclamp (lo hi x : ℚ) : ℚ := max lo (min hi x)

/-- Immutable per-render-pass parameter bundle, one field per shading
UPROPERTY of `UVdbResearchComponent` (`Temperature` appears under its spec
name `temperatureScale`). -/
structure ShadingConfig where
  color : RGB
  densityMultiplier : ℚ
  albedo : ℚ
  anisotropy : ℚ
  emissionStrength : ℚ
  emissionColor : RGB
  blackbodyIntensity : ℚ
  blackbodyTint : RGB
  temperatureScale : ℚ
deriving DecidableEq

/-- Configuration-boundary clamping, embedded from the `ClampMin`/`ClampMax`
metadata of `VdbResearchComponent.h`: `DensityMultiplier` has ClampMin
0.00001, `Albedo` is clamped to 0..0.95, `Anisotropy` to -1..1,
`EmissionStrength` and `BlackbodyIntensity` have ClampMin 0, and
`Temperature` is clamped to 0..6500. The colour tints carry no clamp. -/
def mkShadingConfig (raw : ShadingConfig) : ShadingConfig :=
  { color := raw.color
    densityMultiplier := max (1 / 100000) raw.densityMultiplier
    albedo := rclamp 0 (95 / 100) raw.albedo
    anisotropy := rclamp (-1) 1 raw.anisotropy
    emissionStrength := max 0 raw.emissionStrength
    emissionColor := raw.emissionColor
    blackbodyIntensity := max 0 raw.blackbodyIntensity
    blackbodyTint := raw.blackbodyTint
    temperatureScale := rclamp 0 6500 raw.temperatureScale }

/-- The declared parameter ranges of the data model: `densityMultiplier > 0`,
`albedo` in 0..0.95, `anisotropy` in -1..1, `emissionStrength ≥ 0`,
`blackbodyIntensity ≥ 0`, `temperatureScale` in 0..6500. -/
def ValidRanges (c : ShadingConfig) : Prop :=
  0 < c.densityMultiplier ∧
  (0 ≤ c.albedo ∧ c.albedo ≤ 95 / 100) ∧
  (-1 ≤ c.anisotropy ∧ c.anisotropy ≤ 1) ∧
  0 ≤ c.emissionStrength ∧
  0 ≤ c.blackbodyIntensity ∧
  (0 ≤ c.temperatureScale ∧ c.temperatureScale ≤ 6500)

instance (c : ShadingConfig) : Decidable (ValidRanges c) := by
  unfold ValidRanges; infer_instance

/-- Configuration-boundary clamp for the `MaxRayDepth` UPROPERTY, embedded
from its metadata `ClampMin = "1"`, `ClampMax = "50"`. -/
def clampMaxRayDepth (n : ℤ) : ℤ := max 1 (min 50 n)

/-- Render settings: `maxRayDepth ≥ 1`, `samplesPerPixel ≥ 1`. -/
structure RenderSettings where
  maxRayDepth : ℕ
  samplesPerPixel : ℕ
deriving DecidableEq

/-- Modelled from the spec: the BlackbodyEmitter implementation is not among
the available sources. A normalized Planckian-locus colour approximation
over the 0-6500 K domain, as a simple rational ramp (red saturated, green
and blue rising with temperature). -/
def planckColor (tempK : ℚ) : RGB :=
  ⟨1, rclamp 0 1 (tempK / 3300), rclamp 0 1 ((tempK - 1000) / 5500)⟩

/-- Modelled from the spec: `BlackbodyEmitter.emittedRadiance` is not among
the available sources. It maps temperature to the Planckian-locus colour
scaled by `intensity` and tinted by `tint`; at `tempK = 0` or
`intensity = 0` it returns exact zero. -/
def emittedRadiance (tempK intensity : ℚ) (tint : RGB) : RGB :=
  if tempK = 0 ∨ intensity = 0 then 0
  else intensity • (tint * planckColor tempK)

/-- Per-point material response resolved from the configuration and the
field samples. -/
structure ResolvedShading where
  extinction : ℚ
  scatterColor : RGB
  albedo : ℚ
  anisotropy : ℚ
  emission : RGB
deriving DecidableEq

/-- Modelled from the spec: `VolumeShadingParameters.resolve` is not among
the available sources. Extinction is the density sample (negative samples
clamped to 0, treated as vacuum) times the density multiplier; emission is
the unconditional sum of the channel term and the blackbody term, the
blackbody term being omitted (zero) when no temperature field is bound. -/
def resolve (cfg : ShadingConfig) (densitySample : ℚ) (temperatureSample : Option ℚ) :
    ResolvedShading :=
  { extinction := max densitySample 0 * cfg.densityMultiplier
    scatterColor := cfg.color
    albedo := cfg.albedo
    anisotropy := cfg.anisotropy
    emission := cfg.emissionStrength • cfg.emissionColor +
      match temperatureSample with
      | some t =>
          emittedRadiance (t * cfg.temperatureScale) cfg.blackbodyIntensity cfg.blackbodyTint
      | none => 0 }

/-- Per-pixel progressive accumulation record: summed radiance and sample
count. -/
structure PixelAccum where
  sum : RGB
  count : ℕ
deriving DecidableEq

/-- Modelled from the spec: `SampleAccumulator.add` is not among the
available sources. Appends one sample to the pixel's running sum. -/
def PixelAccum.add (p : PixelAccum) (radiance : RGB) : PixelAccum :=
  ⟨p.sum + radiance, p.count + 1⟩

/-- Modelled from the spec: `SampleAccumulator.finalize` is not among the
available sources. Returns `sum / sampleCount`, with the defined default of
zero when the pixel was never sampled. -/
def finalize (p : PixelAccum) : RGB :=
  if p.count = 0 then 0 else ((p.count : ℚ))⁻¹ • p.sum

/-- Per-ray state-machine phases. `Scattered` and `Emitted` are the spec's
transient phases: a bounce that scatters passes through them and loops back
to `Tracing`, so the per-bounce step below collapses them and they never
occur in a run; the terminal phases are `Absorbed`, `Escaped` and
`DepthExhausted`. -/
inductive PathPhase
  | Tracing
  | Scattered
  | Absorbed
  | Emitted
  | Escaped
  | DepthExhausted
deriving DecidableEq

/-- Mutable per-ray record: position, direction, throughput, accumulated
radiance, bounce count and phase. The read-only `ShadingConfig` of the pass
is carried alongside so that its preservation across the pass is a stated
property rather than a convention. -/
structure PassState where
  cfg : ShadingConfig
  pos : Vec3
  dir : Vec3
  throughput : RGB
  radiance : RGB
  bounces : ℕ
  phase : PathPhase
deriving DecidableEq

/-- One stochastic event of the delta-tracking loop, drawn from the ray's
random stream: either the free-flight distance left the `tMin..tMax`
segment (the ray exits the volume), or a candidate collision carrying the
field samples at the candidate point, the acceptance and scatter-branch
uniforms, and the sampled collision point and phase-function direction. -/
inductive Ev
  | flightEscape
  | candidate (dSample : ℚ) (tSample : Option ℚ) (uAccept uScatter : ℚ) (newPos newDir : Vec3)
deriving DecidableEq

/-- Modelled from the spec: the PathIntegrator implementation is not among
the available sources. One iteration of the per-bounce algorithm of section
4.5: a non-`Tracing` state is left untouched; a ray missing the density
bounds escapes with the background contribution; a free-flight escape does
the same; a candidate collision is accepted when
`uAccept * majorant < extinction` (otherwise it is a null collision and the
state is unchanged); an accepted collision adds the emission contribution
unconditionally and then branches on `uScatter < albedo` between scattering
(increment the bounce count, transitioning to `DepthExhausted` once it
reaches `maxRayDepth`) and absorption. -/
def bounceStep (bounds : Vec3 → Vec3 → Option (ℚ × ℚ)) (rs : RenderSettings)
    (bg : RGB) (majorant : ℚ) (s : PassState) (e : Ev) : PassState :=
  if s.phase = PathPhase.Tracing then
    match bounds s.pos s.dir with
    | none => { s with phase := PathPhase.Escaped, radiance := s.radiance + s.throughput * bg }
    | some _ =>
      match e with
      | Ev.flightEscape =>
          { s with phase := PathPhase.Escaped, radiance := s.radiance + s.throughput * bg }
      | Ev.candidate dS tS uA uS newPos newDir =>
          let sh := resolve s.cfg dS tS
          if uA * majorant < sh.extinction then
            let s1 := { s with pos := newPos,
                               radiance := s.radiance + s.throughput * sh.emission }
            if uS < sh.albedo then
              if rs.maxRayDepth ≤ s1.bounces + 1 then
                { s1 with dir := newDir, bounces := s1.bounces + 1,
                          phase := PathPhase.DepthExhausted }
              else
                { s1 with dir := newDir, bounces := s1.bounces + 1,
                          phase := PathPhase.Tracing }
            else
              { s1 with phase := PathPhase.Absorbed }
          else
            s
  else s

/-- A whole path is the fold of the per-bounce step over the ray's event
stream. -/
def runPass (bounds : Vec3 → Vec3 → Option (ℚ × ℚ)) (rs : RenderSettings)
    (bg : RGB) (majorant : ℚ) (s : PassState) (evs : List Ev) : PassState :=
  evs.foldl (bounceStep bounds rs bg majorant) s

/-- Fresh per-ray state for a camera ray: unit throughput, zero radiance,
zero bounces, phase `Tracing`. -/
def initState (cfg : ShadingConfig) (origin viewDir : Vec3) : PassState :=
  { cfg := cfg, pos := origin, dir := viewDir, throughput := 1, radiance := 0,
    bounces := 0, phase := PathPhase.Tracing }

/-- Terminal state of the path traced for one camera ray under the given
event stream. -/
def tracePath (cfg : ShadingConfig) (bounds : Vec3 → Vec3 → Option (ℚ × ℚ))
    (rs : RenderSettings) (bg : RGB) (majorant : ℚ) (origin viewDir : Vec3)
    (evs : List Ev) : PassState :=
  runPass bounds rs bg majorant (initState cfg origin viewDir) evs

/-- All three components lie in the unit interval. -/
def UnitRGB (c : RGB) : Prop :=
  (0 ≤ c.r ∧ c.r ≤ 1) ∧ (0 ≤ c.g ∧ c.g ≤ 1) ∧ (0 ≤ c.b ∧ c.b ≤ 1)

instance (c : RGB) : Decidable (UnitRGB c) := by
  unfold UnitRGB; infer_instance

/-- Depth invariant: the bounce count never exceeds `maxRayDepth`, and a ray
still `Tracing` is strictly below it (so the step that reaches the bound has
already transitioned to `DepthExhausted`). -/
def DepthInv (rs : RenderSettings) (s : PassState) : Prop :=
  s.bounces ≤ rs.maxRayDepth ∧ (s.phase = PathPhase.Tracing → s.bounces < rs.maxRayDepth)

/-- Energy invariant for a pass with both emission controls at zero: the
throughput stays at one, a ray still `Tracing` carries zero radiance, and
the accumulated radiance stays inside the unit cube. -/
def EnergyInv (s : PassState) : Prop :=
  s.cfg.emissionStrength = 0 ∧ s.cfg.blackbodyIntensity = 0 ∧
  s.throughput = 1 ∧ (s.phase = PathPhase.Tracing → s.radiance = 0) ∧ UnitRGB s.radiance

/-- Concrete configuration with albedo 1 and both emission controls at zero,
for the depth-bound witness. -/
def cfgAlbedoOne : ShadingConfig :=
  ⟨⟨1, 1, 1⟩, 1, 1, 0, 0, ⟨1, 1, 1⟩, 0, ⟨1, 1, 1⟩, 0⟩

/-- Concrete in-range configuration with albedo one half and both emission
controls at zero. -/
def cfgHalf : ShadingConfig :=
  ⟨⟨1, 1, 1⟩, 1, 1 / 2, 0, 0, ⟨1, 1, 1⟩, 0, ⟨1, 1, 1⟩, 1500⟩

/-- Bounds query of a volume every ray hits, with parametric segment 0..1. -/
def boundsUnit : Vec3 → Vec3 → Option (ℚ × ℚ) := fun _ _ => some (0, 1)

/-- Bounds query of a volume no ray hits. -/
def boundsNone : Vec3 → Vec3 → Option (ℚ × ℚ) := fun _ _ => none

/-- Concrete ray origin. -/
def rayO : Vec3 := ⟨0, 0, 0⟩

/-- Concrete ray direction. -/
def rayD : Vec3 := ⟨0, 0, 1⟩

/-- Candidate collision event with density sample 1, accepted at majorant 1,
scattering for any positive albedo. -/
def evCollide : Ev := Ev.candidate 1 none 0 0 rayO rayD

theorem rgb_zero_def : (0 : RGB) = ⟨0, 0, 0⟩ := rfl

theorem rgb_one_def : (1 : RGB) = ⟨1, 1, 1⟩ := rfl

theorem rgb_add_def (a c : RGB) : a + c = ⟨a.r + c.r, a.g + c.g, a.b + c.b⟩ := rfl

theorem rgb_mul_def (a c : RGB) : a * c = ⟨a.r * c.r, a.g * c.g, a.b * c.b⟩ := rfl

theorem rgb_smul_def (k : ℚ) (a : RGB) : k • a = ⟨k * a.r, k * a.g, k * a.b⟩ := rfl

theorem rgb_add_zero (a : RGB) : a + 0 = a := by
  ext <;> simp [rgb_add_def, rgb_zero_def]

theorem rgb_zero_add (a : RGB) : (0 : RGB) + a = a := by
  ext <;> simp [rgb_add_def, rgb_zero_def]

theorem rgb_one_mul (a : RGB) : (1 : RGB) * a = a := by
  ext <;> simp [rgb_mul_def, rgb_one_def]

theorem rgb_mul_zero (a : RGB) : a * (0 : RGB) = 0 := by
  ext <;> simp [rgb_mul_def, rgb_zero_def]

theorem rgb_zero_smul (a : RGB) : (0 : ℚ) • a = 0 := by
  ext <;> simp [rgb_smul_def, rgb_zero_def]

theorem rclamp_le (lo hi x : ℚ) (h : lo ≤ hi) : lo ≤ rclamp lo hi x ∧ rclamp lo hi x ≤ hi :=
  ⟨le_max_left lo _, max_le h (min_le_left hi x)⟩

theorem runPass_nil (bounds : Vec3 → Vec3 → Option (ℚ × ℚ)) (rs : RenderSettings)
    (bg : RGB) (majorant : ℚ) (s : PassState) :
    runPass bounds rs bg majorant s [] = s := rfl

theorem runPass_cons (bounds : Vec3 → Vec3 → Option (ℚ × ℚ)) (rs : RenderSettings)
    (bg : RGB) (majorant : ℚ) (s : PassState) (e : Ev) (evs : List Ev) :
    runPass bounds rs bg majorant s (e :: evs) =
      runPass bounds rs bg majorant (bounceStep bounds rs bg majorant s e) evs := rfl

/-- Any property preserved by one bounce is preserved by the whole fold. -/
theorem runPass_inv (bounds : Vec3 → Vec3 → Option (ℚ × ℚ)) (rs : RenderSettings)
    (bg : RGB) (majorant : ℚ) (P : PassState → Prop)
    (hstep : ∀ s e, P s → P (bounceStep bounds rs bg majorant s e)) :
    ∀ (evs : List Ev) (s : PassState), P s → P (runPass bounds rs bg majorant s evs) := by
  intro evs
  induction evs with
  | nil => intro s h; exact h
  | cons e evs ih =>
      intro s h
      rw [runPass_cons]
      exact ih _ (hstep s e h)

/-- One bounce never writes the configuration. -/
theorem bounceStep_cfg (bounds : Vec3 → Vec3 → Option (ℚ × ℚ)) (rs : RenderSettings)
    (bg : RGB) (majorant : ℚ) (s : PassState) (e : Ev) :
    (bounceStep bounds rs bg majorant s e).cfg = s.cfg := by
  unfold bounceStep
  split
  · split
    · rfl
    · split
      · rfl
      · dsimp only
        split
        · split
          · split
            · rfl
            · rfl
          · rfl
        · rfl
  · rfl

/-- A state no longer `Tracing` absorbs every further event. -/
theorem bounceStep_not_tracing (bounds : Vec3 → Vec3 → Option (ℚ × ℚ)) (rs : RenderSettings)
    (bg : RGB) (majorant : ℚ) (s : PassState) (e : Ev)
    (h : s.phase ≠ PathPhase.Tracing) :
    bounceStep bounds rs bg majorant s e = s := by
  unfold bounceStep
  rw [if_neg h]

/-- A state no longer `Tracing` is a fixed point of the whole fold. -/
theorem runPass_not_tracing (bounds : Vec3 → Vec3 → Option (ℚ × ℚ)) (rs : RenderSettings)
    (bg : RGB) (majorant : ℚ) (s : PassState) (evs : List Ev)
    (h : s.phase ≠ PathPhase.Tracing) :
    runPass bounds rs bg majorant s evs = s := by
  induction evs with
  | nil => rfl
  | cons e evs ih =>
      rw [runPass_cons, bounceStep_not_tracing bounds rs bg majorant s e h]
      exact ih

theorem bounceStep_depthInv (bounds : Vec3 → Vec3 → Option (ℚ × ℚ)) (rs : RenderSettings)
    (bg : RGB) (majorant : ℚ) (s : PassState) (e : Ev) (h : DepthInv rs s) :
    DepthInv rs (bounceStep bounds rs bg majorant s e) := by
  obtain ⟨h1, h2⟩ := h
  unfold bounceStep
  split
  · rename_i htr
    have hlt : s.bounces < rs.maxRayDepth := h2 htr
    split
    · exact ⟨h1, by simp⟩
    · split
      · exact ⟨h1, by simp⟩
      · dsimp only
        split
        · split
          · split
            · rename_i hdep
              exact ⟨hlt, by simp⟩
            · rename_i hdep
              exact ⟨le_of_lt (Nat.lt_of_not_le hdep), fun _ => Nat.lt_of_not_le hdep⟩
          · exact ⟨h1, by simp⟩
        · exact ⟨h1, h2⟩
  · exact ⟨h1, h2⟩

theorem runPass_depthInv (bounds : Vec3 → Vec3 → Option (ℚ × ℚ)) (rs : RenderSettings)
    (bg : RGB) (majorant : ℚ) (s : PassState) (evs : List Ev) (h : DepthInv rs s) :
    DepthInv rs (runPass bounds rs bg majorant s evs) :=
  runPass_inv bounds rs bg majorant (DepthInv rs)
    (fun s e hs => bounceStep_depthInv bounds rs bg majorant s e hs) evs s h

/-- With both emission controls at zero, the resolved emission is exact
zero whether or not a temperature field is bound. -/
theorem resolve_emission_zero (cfg : ShadingConfig) (hE : cfg.emissionStrength = 0)
    (hB : cfg.blackbodyIntensity = 0) (d : ℚ) (t : Option ℚ) :
    (resolve cfg d t).emission = 0 := by
  cases t with
  | none => simp [resolve, hE, rgb_zero_smul, rgb_add_zero]
  | some t => simp [resolve, emittedRadiance, hE, hB, rgb_zero_smul, rgb_add_zero]

theorem bounceStep_energyInv (bounds : Vec3 → Vec3 → Option (ℚ × ℚ)) (rs : RenderSettings)
    (bg : RGB) (majorant : ℚ) (hbg : UnitRGB bg) (s : PassState) (e : Ev)
    (h : EnergyInv s) : EnergyInv (bounceStep bounds rs bg majorant s e) := by
  obtain ⟨hE, hB, hthr, htr0, hunit⟩ := h
  unfold bounceStep
  split
  · rename_i htr
    have hrad : s.radiance = 0 := htr0 htr
    have hesc : s.radiance + s.throughput * bg = bg := by
      rw [hrad, hthr, rgb_one_mul, rgb_zero_add]
    have hem : ∀ dS tS, s.radiance + s.throughput * (resolve s.cfg dS tS).emission = 0 := by
      intro dS tS
      rw [resolve_emission_zero s.cfg hE hB, rgb_mul_zero, rgb_add_zero, hrad]
    split
    · refine ⟨hE, hB, hthr, by simp, ?_⟩
      rw [hesc]; exact hbg
    · split
      · refine ⟨hE, hB, hthr, by simp, ?_⟩
        rw [hesc]; exact hbg
      · rename_i dS tS uA uS newPos newDir
        dsimp only
        split
        · split
          · split
            · refine ⟨hE, hB, hthr, by simp, ?_⟩
              rw [hem dS tS]
              show UnitRGB (0 : RGB)
              decide
            · refine ⟨hE, hB, hthr, fun _ => ?_, ?_⟩
              · rw [hem dS tS]
              · rw [hem dS tS]
                show UnitRGB (0 : RGB)
                decide
          · refine ⟨hE, hB, hthr, by simp, ?_⟩
            rw [hem dS tS]
            show UnitRGB (0 : RGB)
            decide
        · exact ⟨hE, hB, hthr, htr0, hunit⟩
  · exact ⟨hE, hB, hthr, htr0, hunit⟩

theorem runPass_energyInv (bounds : Vec3 → Vec3 → Option (ℚ × ℚ)) (rs : RenderSettings)
    (bg : RGB) (majorant : ℚ) (hbg : UnitRGB bg) (s : PassState) (evs : List Ev)
    (h : EnergyInv s) : EnergyInv (runPass bounds rs bg majorant s evs) :=
  runPass_inv bounds rs bg majorant EnergyInv
    (fun s e hs => bounceStep_energyInv bounds rs bg majorant hbg s e hs) evs s h

theorem runPass_cfg (bounds : Vec3 → Vec3 → Option (ℚ × ℚ)) (rs : RenderSettings)
    (bg : RGB) (majorant : ℚ) (s : PassState) (evs : List Ev) :
    (runPass bounds rs bg majorant s evs).cfg = s.cfg :=
  runPass_inv bounds rs bg majorant (fun t => t.cfg = s.cfg)
    (fun t e ht => (bounceStep_cfg bounds rs bg majorant t e).trans ht) evs s rfl

/-- C1: every ShadingConfig leaving the configuration boundary satisfies the
declared parameter ranges — densityMultiplier > 0, albedo in 0..0.95,
anisotropy in -1..1, emissionStrength ≥ 0, blackbodyIntensity ≥ 0,
temperatureScale in 0..6500 — enforced by the header's clamp metadata, and
no operation of the render pass mutates the configuration a path carries. -/
theorem shadingConfig_clamped_and_pass_immutable (raw : ShadingConfig)
    (bounds : Vec3 → Vec3 → Option (ℚ × ℚ)) (rs : RenderSettings) (bg : RGB)
    (majorant : ℚ) (s : PassState) (evs : List Ev) :
    ValidRanges (mkShadingConfig raw) ∧
      (runPass bounds rs bg majorant s evs).cfg = s.cfg := by
  constructor
  · exact ⟨lt_of_lt_of_le (by norm_num) (le_max_left _ _),
      rclamp_le 0 (95 / 100) raw.albedo (by norm_num),
      rclamp_le (-1) 1 raw.anisotropy (by norm_num),
      le_max_left 0 _, le_max_left 0 _,
      rclamp_le 0 6500 raw.temperatureScale (by norm_num)⟩
  · exact runPass_cfg bounds rs bg majorant s evs

/-- C2: with maxRayDepth ≥ 1, the bounce count of any traced path never
exceeds maxRayDepth; a path still in `Tracing` has strictly fewer bounces
(so the scatter that reaches the bound has already transitioned it to
`DepthExhausted`), and a `DepthExhausted` path absorbs every further event,
accumulating no further scattering radiance. With maxRayDepth = 1 this
bounds the path to at most one scatter event. -/
theorem path_depth_bound (cfg : ShadingConfig) (bounds : Vec3 → Vec3 → Option (ℚ × ℚ))
    (rs : RenderSettings) (bg : RGB) (majorant : ℚ) (origin viewDir : Vec3)
    (evs : List Ev) (e : Ev) (hdepth : 1 ≤ rs.maxRayDepth) :
    (tracePath cfg bounds rs bg majorant origin viewDir evs).bounces ≤ rs.maxRayDepth ∧
    ((tracePath cfg bounds rs bg majorant origin viewDir evs).phase = PathPhase.Tracing →
      (tracePath cfg bounds rs bg majorant origin viewDir evs).bounces < rs.maxRayDepth) ∧
    ((tracePath cfg bounds rs bg majorant origin viewDir evs).phase = PathPhase.DepthExhausted →
      bounceStep bounds rs bg majorant
          (tracePath cfg bounds rs bg majorant origin viewDir evs) e
        = tracePath cfg bounds rs bg majorant origin viewDir evs) := by
  have h0 : DepthInv rs (initState cfg origin viewDir) := ⟨Nat.zero_le _, fun _ => hdepth⟩
  have h := runPass_depthInv bounds rs bg majorant (initState cfg origin viewDir) evs h0
  refine ⟨h.1, h.2, fun hph => ?_⟩
  refine bounceStep_not_tracing bounds rs bg majorant _ e ?_
  rw [hph]
  simp

/-- Witness for C2 at a concrete input: maxRayDepth 1, albedo 1, one
accepted collision; the path scatters once and is forced to
`DepthExhausted`. -/
theorem path_depth_bound_witness :
    (tracePath cfgAlbedoOne boundsUnit (RenderSettings.mk 1 1) 0 1 rayO rayD
        [evCollide]).bounces ≤ (RenderSettings.mk 1 1).maxRayDepth ∧
    ((tracePath cfgAlbedoOne boundsUnit (RenderSettings.mk 1 1) 0 1 rayO rayD
        [evCollide]).phase = PathPhase.Tracing →
      (tracePath cfgAlbedoOne boundsUnit (RenderSettings.mk 1 1) 0 1 rayO rayD
        [evCollide]).bounces < (RenderSettings.mk 1 1).maxRayDepth) ∧
    ((tracePath cfgAlbedoOne boundsUnit (RenderSettings.mk 1 1) 0 1 rayO rayD
        [evCollide]).phase = PathPhase.DepthExhausted →
      bounceStep boundsUnit (RenderSettings.mk 1 1) 0 1
          (tracePath cfgAlbedoOne boundsUnit (RenderSettings.mk 1 1) 0 1 rayO rayD [evCollide])
          Ev.flightEscape
        = tracePath cfgAlbedoOne boundsUnit (RenderSettings.mk 1 1) 0 1 rayO rayD [evCollide]) :=
  path_depth_bound cfgAlbedoOne boundsUnit (RenderSettings.mk 1 1) 0 1 rayO rayD
    [evCollide] Ev.flightEscape (by decide)

/-- C3: at every accepted collision the emission contribution
`radiance + throughput * emission` is added whatever the scatter uniform
decides afterwards, and with a bound temperature field the resolved emission
is the unconditional sum of the channel term and the blackbody term — no
mutually exclusive emission-mode selection. -/
theorem emission_unconditional_at_collision (bounds : Vec3 → Vec3 → Option (ℚ × ℚ))
    (rs : RenderSettings) (bg : RGB) (majorant : ℚ) (s : PassState)
    (dS t : ℚ) (tS : Option ℚ) (uA uS : ℚ) (newPos newDir : Vec3) (tmn tmx : ℚ)
    (htr : s.phase = PathPhase.Tracing)
    (hhit : bounds s.pos s.dir = some (tmn, tmx))
    (hacc : uA * majorant < (resolve s.cfg dS tS).extinction) :
    (bounceStep bounds rs bg majorant s (Ev.candidate dS tS uA uS newPos newDir)).radiance
      = s.radiance + s.throughput * (resolve s.cfg dS tS).emission ∧
    (resolve s.cfg dS (some t)).emission
      = s.cfg.emissionStrength • s.cfg.emissionColor +
        emittedRadiance (t * s.cfg.temperatureScale) s.cfg.blackbodyIntensity
          s.cfg.blackbodyTint := by
  constructor
  · unfold bounceStep
    rw [if_pos htr, hhit]
    dsimp only
    rw [if_pos hacc]
    split
    · split
      · rfl
      · rfl
    · rfl
  · rfl

/-- Witness for C3 at a concrete accepted collision (density sample 1,
majorant 1, acceptance uniform 0). -/
theorem emission_unconditional_at_collision_witness :
    (bounceStep boundsUnit (RenderSettings.mk 4 1) 0 1 (initState cfgHalf rayO rayD)
        (Ev.candidate 1 none 0 0 rayO rayD)).radiance
      = (initState cfgHalf rayO rayD).radiance +
        (initState cfgHalf rayO rayD).throughput *
          (resolve (initState cfgHalf rayO rayD).cfg 1 none).emission ∧
    (resolve (initState cfgHalf rayO rayD).cfg 1 (some 2)).emission
      = (initState cfgHalf rayO rayD).cfg.emissionStrength •
          (initState cfgHalf rayO rayD).cfg.emissionColor +
        emittedRadiance (2 * (initState cfgHalf rayO rayD).cfg.temperatureScale)
          (initState cfgHalf rayO rayD).cfg.blackbodyIntensity
          (initState cfgHalf rayO rayD).cfg.blackbodyTint :=
  emission_unconditional_at_collision boundsUnit (RenderSettings.mk 4 1) 0 1
    (initState cfgHalf rayO rayD) 1 2 none 0 0 rayO rayD 0 1 rfl rfl
    (by norm_num [resolve, initState, cfgHalf])

/-- C4: with emissionStrength = 0 and blackbodyIntensity = 0, input colour
inside the unit cube and a background inside the unit cube, the accumulated
radiance of any traced path stays inside the unit cube per channel: no
scattering event adds energy beyond the incoming throughput. -/
theorem energy_conservation_bound (cfg : ShadingConfig)
    (bounds : Vec3 → Vec3 → Option (ℚ × ℚ)) (rs : RenderSettings) (bg : RGB)
    (majorant : ℚ) (origin viewDir : Vec3) (evs : List Ev)
    (hE : cfg.emissionStrength = 0) (hB : cfg.blackbodyIntensity = 0)
    (hcol : UnitRGB cfg.color) (hbg : UnitRGB bg) :
    UnitRGB (tracePath cfg bounds rs bg majorant origin viewDir evs).radiance := by
  have h0 : EnergyInv (initState cfg origin viewDir) := by
    refine ⟨hE, hB, rfl, fun _ => rfl, ?_⟩
    show UnitRGB (0 : RGB)
    decide
  exact (runPass_energyInv bounds rs bg majorant hbg
    (initState cfg origin viewDir) evs h0).2.2.2.2

/-- Witness for C4: a path that scatters once and then escapes onto a
half-grey background ends with radiance inside the unit cube. -/
theorem energy_conservation_bound_witness :
    UnitRGB (tracePath cfgHalf boundsUnit (RenderSettings.mk 4 1) ⟨1 / 2, 1 / 2, 1 / 2⟩ 1
      rayO rayD [Ev.candidate 1 none 0 0 rayO rayD, Ev.flightEscape]).radiance :=
  energy_conservation_bound cfgHalf boundsUnit (RenderSettings.mk 4 1) ⟨1 / 2, 1 / 2, 1 / 2⟩ 1
    rayO rayD [Ev.candidate 1 none 0 0 rayO rayD, Ev.flightEscape]
    rfl rfl (by norm_num [UnitRGB, cfgHalf]) (by norm_num [UnitRGB])

/-- C5: for every density sample and valid configuration the resolved
extinction is the nonnegatively clamped sample times the density
multiplier: it is nonnegative, equals the plain product for nonnegative
samples, and is zero (vacuum) for negative samples. -/
theorem extinction_nonneg_clamped (cfg : ShadingConfig) (d : ℚ) (t : Option ℚ)
    (hv : ValidRanges cfg) :
    (resolve cfg d t).extinction = max d 0 * cfg.densityMultiplier ∧
    0 ≤ (resolve cfg d t).extinction ∧
    (0 ≤ d → (resolve cfg d t).extinction = d * cfg.densityMultiplier) ∧
    (d < 0 → (resolve cfg d t).extinction = 0) := by
  refine ⟨rfl, ?_, ?_, ?_⟩
  · show 0 ≤ max d 0 * cfg.densityMultiplier
    exact mul_nonneg (le_max_right d 0) (le_of_lt hv.1)
  · intro hd
    show max d 0 * cfg.densityMultiplier = d * cfg.densityMultiplier
    rw [max_eq_left hd]
  · intro hd
    show max d 0 * cfg.densityMultiplier = 0
    rw [max_eq_right (le_of_lt hd), zero_mul]

/-- Witness for C5 at a negative density sample. -/
theorem extinction_nonneg_clamped_witness :
    (resolve cfgHalf (-1) none).extinction = max (-1) 0 * cfgHalf.densityMultiplier ∧
    0 ≤ (resolve cfgHalf (-1) none).extinction ∧
    (0 ≤ (-1 : ℚ) → (resolve cfgHalf (-1) none).extinction = -1 * cfgHalf.densityMultiplier) ∧
    ((-1 : ℚ) < 0 → (resolve cfgHalf (-1) none).extinction = 0) :=
  extinction_nonneg_clamped cfgHalf (-1) none (by norm_num [ValidRanges, cfgHalf])

/-- C6: a ray whose origin and direction never intersect the density
field's bounds transitions to `Escaped` on the first bounce and its
radiance is exactly the background contribution — zero in-volume radiance
is added. -/
theorem miss_escapes_with_background (cfg : ShadingConfig)
    (bounds : Vec3 → Vec3 → Option (ℚ × ℚ)) (rs : RenderSettings) (bg : RGB)
    (majorant : ℚ) (origin viewDir : Vec3) (ev : Ev) (evs : List Ev)
    (hmiss : bounds origin viewDir = none) :
    (tracePath cfg bounds rs bg majorant origin viewDir (ev :: evs)).phase
        = PathPhase.Escaped ∧
    (tracePath cfg bounds rs bg majorant origin viewDir (ev :: evs)).radiance = bg := by
  have hstep : bounceStep bounds rs bg majorant (initState cfg origin viewDir) ev =
      { cfg := cfg, pos := origin, dir := viewDir, throughput := 1, radiance := bg,
        bounces := 0, phase := PathPhase.Escaped } := by
    unfold bounceStep initState
    dsimp only
    rw [if_pos rfl, hmiss]
    dsimp only
    rw [rgb_one_mul, rgb_zero_add]
  unfold tracePath
  rw [runPass_cons, hstep, runPass_not_tracing bounds rs bg majorant _ evs (by simp)]
  exact ⟨rfl, rfl⟩

/-- Witness for C6: a ray against a volume whose bounds query always
misses. -/
theorem miss_escapes_with_background_witness :
    (tracePath cfgHalf boundsNone (RenderSettings.mk 4 1) ⟨1 / 4, 1 / 2, 3 / 4⟩ 1 rayO rayD
        [Ev.flightEscape]).phase = PathPhase.Escaped ∧
    (tracePath cfgHalf boundsNone (RenderSettings.mk 4 1) ⟨1 / 4, 1 / 2, 3 / 4⟩ 1 rayO rayD
        [Ev.flightEscape]).radiance = ⟨1 / 4, 1 / 2, 3 / 4⟩ :=
  miss_escapes_with_background cfgHalf boundsNone (RenderSettings.mk 4 1)
    ⟨1 / 4, 1 / 2, 3 / 4⟩ 1 rayO rayD Ev.flightEscape [] rfl

/-- C7: with no temperature field bound, the resolved emission is exactly
the channel term `emissionStrength • emissionColor` — the blackbody term is
omitted as a zero contribution, and no input is an error. -/
theorem no_temperature_omits_blackbody (cfg : ShadingConfig) (d : ℚ) :
    (resolve cfg d none).emission = cfg.emissionStrength • cfg.emissionColor := by
  show cfg.emissionStrength • cfg.emissionColor + (0 : RGB) = _
  exact rgb_add_zero _

/-- C8: the blackbody emitter returns exact zero at zero temperature for
every intensity and tint, and at zero intensity for every temperature and
tint. -/
theorem blackbody_zero_point (tempK intensity : ℚ) (tint : RGB) :
    emittedRadiance 0 intensity tint = 0 ∧ emittedRadiance tempK 0 tint = 0 := by
  constructor
  · unfold emittedRadiance
    rw [if_pos (Or.inl rfl)]
  · unfold emittedRadiance
    rw [if_pos (Or.inr rfl)]

/-- C9: finalize on a pixel that was never sampled returns exact zero
rather than dividing by the zero sample count. -/
theorem finalize_zero_samples (p : PixelAccum) (h : p.count = 0) :
    finalize p = 0 := by
  unfold finalize
  rw [if_pos h]

/-- Witness for C9 at a pixel with a nonzero radiance sum and zero
samples. -/
theorem finalize_zero_samples_witness : finalize ⟨⟨5, 6, 7⟩, 0⟩ = 0 :=
  finalize_zero_samples ⟨⟨5, 6, 7⟩, 0⟩ rfl

/-- C10: the configuration boundary clamps MaxRayDepth into 1..50 — the
header's ClampMax of 50 bounds it above as well as the spec's required
lower bound of 1. -/
theorem maxRayDepth_clamped_upper (n : ℤ) :
    1 ≤ clampMaxRayDepth n ∧ clampMaxRayDepth n ≤ 50 :=
  ⟨le_max_left 1 _, max_le (by norm_num) (min_le_left 50 n)⟩

end UnrealVdb
